import Mathlib

/-!
Shallow embedding of the ESP32-H2 IEEE 802.15.4 sniffer/transmitter firmware
(`code/firmware/esp_sniff_envoie.c`) and proofs about its capture pipeline,
mode state machine, serial command dispatch and relay-line rendering.

Conventions: C machine integers are modelled as `Nat`/`Int` with explicit
`% 256` where `uint8_t` wrap-around matters; raw byte buffers are `List Nat`;
hardware side effects (radio reconfiguration calls, buffer hand-back, receiver
re-arm) are reified as explicit call lists so that "which calls were issued"
is provable.
-/

set_option maxRecDepth 8192

-- Constants from the configuration section of the source file.

def MAX_FRAME_SIZE : Nat := 127

def QUEUE_SIZE : Nat := 40

def CMD_MARKER_LEN : Nat := 5

/-- Capacity of `rx_packet_t.data` and of the stack buffer `tx_frame` in
`uart_receive_task`: `MAX_FRAME_SIZE + 1` bytes. -/
def tx_frame_capacity : Nat := MAX_FRAME_SIZE + 1

/-- Capacity of the `data` array of `rx_packet_t` (`MAX_FRAME_SIZE + 1`). -/
def rx_data_capacity : Nat := MAX_FRAME_SIZE + 1

/-- Size of `output_buffer` in `uart_send_task`: `MAX_FRAME_SIZE * 3 + 50`. -/
def output_buffer_size : Nat := MAX_FRAME_SIZE * 3 + 50

/-- The two firmware operation modes (`operation_mode_t` in the source).
`MODE_SNIFF` is the spec's `Capture`, `MODE_TX` the spec's `Transmit`. -/
inductive operation_mode_t
  | MODE_SNIFF
  | MODE_TX
deriving DecidableEq, Repr

open operation_mode_t

/-- Initial value of the global `current_mode` variable (source line 45:
`static volatile operation_mode_t current_mode = MODE_TX;`). -/
def current_mode_init : operation_mode_t := MODE_TX

/-- One captured packet with metadata (`rx_packet_t` in the source):
`data` models the byte array, `len` the `uint8_t` length, `rssi` the
`int8_t` signal strength. -/
structure rx_packet_t where
  data : List Nat
  len : Nat
  rssi : Int
deriving DecidableEq, Repr

-- Hardware calls issued by `switch_mode` and `esp_ieee802154_receive_done`.

/-- A reified radio-HAL call, so theorems can talk about exactly which
configuration / buffer-management calls a code path issues. -/
inductive HwCall
  | set_promiscuous (b : Bool)
  | set_panid (v : Nat)
  | set_short_address (v : Nat)
  | set_rx_when_idle (b : Bool)
  | ieee_receive
  | receive_handle_done
deriving DecidableEq, Repr

/-- The radio reconfiguration sequence `switch_mode` issues when entering
`MODE_SNIFF` (source lines 93-97). -/
def sniff_config_calls : List HwCall :=
  [HwCall.set_promiscuous true, HwCall.set_panid 65535,
   HwCall.set_short_address 65535, HwCall.set_rx_when_idle true,
   HwCall.ieee_receive]

/-- The radio reconfiguration sequence `switch_mode` issues when entering
`MODE_TX` (source lines 103-104). -/
def tx_config_calls : List HwCall :=
  [HwCall.set_promiscuous false, HwCall.set_rx_when_idle false]

/-- `switch_mode` (source lines 83-107): returns the new value of
`current_mode` together with the list of hardware reconfiguration calls
issued.  An early return when the mode is unchanged issues no calls. -/
def switch_mode_model (cur new : operation_mode_t) :
    operation_mode_t × List HwCall :=
  if cur = new then (cur, [])
  else if new = MODE_SNIFF then (new, sniff_config_calls)
  else (new, tx_config_calls)

-- The capture handler `esp_ieee802154_receive_done`.

/-- Global mutable state touched by the capture handler: `current_mode`,
the FreeRTOS queue `rx_queue` (front of the list = front of the queue),
and the `dropped_packets` counter. -/
structure SnifferState where
  current_mode : operation_mode_t
  rx_queue : List rx_packet_t
  dropped_packets : Nat
deriving DecidableEq, Repr

/-- What became of the hardware frame inside one handler invocation. -/
inductive HandlerOutcome
  | ignored
  | allocFailed
  | enqueued (p : rx_packet_t)
  | freedRecord (p : rx_packet_t)
deriving DecidableEq, Repr

/-- Result of one `esp_ieee802154_receive_done` invocation: the new global
state, the fate of the record, the radio calls issued before returning, and
the number of bytes `memcpy`-ed out of the hardware buffer. -/
structure HandlerResult where
  state : SnifferState
  outcome : HandlerOutcome
  radioCalls : List HwCall
  copied : Nat
deriving DecidableEq, Repr

/-- Packet construction in the capture handler (source lines 135-137):
`packet->len = frame[0] + 1` (`uint8_t` arithmetic, hence `% 256`),
`packet->rssi = frame_info->rssi`, then `memcpy(packet->data, frame,
packet->len)` — reading `frame[i]` for `i < packet->len`, with no check
against the 128-byte capacity of `data`. -/
def mkPacket (frame : List Nat) (rssi : Int) : rx_packet_t :=
  let len := (frame.getD 0 0 + 1) % 256
  { data := (List.range len).map (fun i => frame.getD i 0)
    len := len
    rssi := rssi }

/-- `esp_ieee802154_receive_done` (source lines 122-158).  Branches:
mode-gated early return (line 123, issues no radio calls), allocation
failure (lines 127-132, increments `dropped_packets` and re-arms via
`esp_ieee802154_receive` but never calls
`esp_ieee802154_receive_handle_done`), and the enqueue path (lines
134-152, try-enqueue then `receive_handle_done` followed by `receive`). -/
def receive_done_model (s : SnifferState) (frame : List Nat) (rssi : Int)
    (allocOk : Bool) : HandlerResult :=
  if s.current_mode ≠ MODE_SNIFF then
    { state := s, outcome := HandlerOutcome.ignored, radioCalls := [], copied := 0 }
  else if allocOk = false then
    { state := { s with dropped_packets := s.dropped_packets + 1 }
      outcome := HandlerOutcome.allocFailed
      radioCalls := [HwCall.ieee_receive]
      copied := 0 }
  else if s.rx_queue.length < QUEUE_SIZE then
    { state := { s with rx_queue := s.rx_queue ++ [mkPacket frame rssi] }
      outcome := HandlerOutcome.enqueued (mkPacket frame rssi)
      radioCalls := [HwCall.receive_handle_done, HwCall.ieee_receive]
      copied := (mkPacket frame rssi).len }
  else
    { state := { s with dropped_packets := s.dropped_packets + 1 }
      outcome := HandlerOutcome.freedRecord (mkPacket frame rssi)
      radioCalls := [HwCall.receive_handle_done, HwCall.ieee_receive]
      copied := (mkPacket frame rssi).len }

/-- Events acting on the shared sniffer state: a capture-handler invocation,
a dequeue by `uart_send_task`, or a mode change through `switch_mode`. -/
inductive SnifferEvent
  | rxDone (frame : List Nat) (rssi : Int) (allocOk : Bool)
  | dequeue
  | setMode (m : operation_mode_t)
deriving DecidableEq, Repr

/-- One event step on the shared state. -/
def stepEvent (s : SnifferState) (e : SnifferEvent) : SnifferState :=
  match e with
  | SnifferEvent.rxDone f r a => (receive_done_model s f r a).state
  | SnifferEvent.dequeue => { s with rx_queue := s.rx_queue.tail }
  | SnifferEvent.setMode m =>
      { s with current_mode := (switch_mode_model s.current_mode m).1 }

/-- Run a sequence of events. -/
def runEvents (s : SnifferState) : List SnifferEvent → SnifferState
  | [] => s
  | e :: es => runEvents (stepEvent s e) es

-- Rendering in `uart_send_task` (source lines 188-202): the C format string
-- is "[%6lu|RSSI:%4ddB|%3dB] " followed by one "%02X" per payload byte and
-- a final "\r\n".

/-- Decimal digit characters of a natural number, most significant first,
with an explicit fuel argument (structural recursion, so the kernel can
evaluate it).  Models the decimal rendering performed by `printf`-style
`%u`/`%d` conversions. -/
def decCharsCore (fuel : Nat) (n : Nat) : List Char :=
  match fuel with
  | 0 => []
  | f + 1 =>
      if n < 10 then [Char.ofNat (48 + n)]
      else decCharsCore f (n / 10) ++ [Char.ofNat (48 + n % 10)]

/-- Decimal digits of `n` (e.g. `decChars 127 = ['1','2','7']`). -/
def decChars (n : Nat) : List Char := decCharsCore (n + 1) n

/-- Decimal rendering of a signed integer, `-` sign included, as `%d`. -/
def intChars (i : Int) : List Char :=
  if i < 0 then '-' :: decChars (-i).toNat else decChars i.toNat

/-- Right-justify `s` in a field of `w` characters, space-padded on the
left — the effect of a `printf` width specifier such as `%6lu`. -/
def padLeft (w : Nat) (s : List Char) : List Char :=
  List.replicate (w - s.length) ' ' ++ s

/-- `%Wu`: unsigned decimal right-justified to width `w`. -/
def fmtNat (w : Nat) (n : Nat) : List Char := padLeft w (decChars n)

/-- `%Wd`: signed decimal right-justified to width `w`. -/
def fmtInt (w : Nat) (i : Int) : List Char := padLeft w (intChars i)

/-- Uppercase hexadecimal digit character. -/
def hexDigit (n : Nat) : Char :=
  if n < 10 then Char.ofNat (48 + n) else Char.ofNat (55 + n)

/-- `%02X` of one byte: exactly two uppercase hex characters. -/
def hex2 (b : Nat) : List Char := [hexDigit (b / 16 % 16), hexDigit (b % 16)]

/-- Concatenated `%02X` renderings of a list of bytes. -/
def hexOfBytes : List Nat → List Char
  | [] => []
  | b :: rest => hex2 b ++ hexOfBytes rest

/-- The `%6lu` sequence field: `xTaskGetTickCount() % 1000000` rendered
right-justified to 6 characters (source line 190). -/
def seqField (tick : Nat) : List Char := fmtNat 6 (tick % 1000000)

/-- The `%4d` RSSI field (source line 191). -/
def rssiField (p : rx_packet_t) : List Char := fmtInt 4 p.rssi

/-- The `%3d` payload-byte-count field: `packet->len - 1` with `len`
promoted to `int` (source line 192), so the subtraction is over `Int`. -/
def countField (p : rx_packet_t) : List Char := fmtInt 3 ((p.len : Int) - 1)

/-- The hex section: the loop `for (i = 1; i < packet->len; i++)` appending
`%02X` of `packet->data[i]` (source lines 196-199). -/
def hexSection (p : rx_packet_t) : List Char :=
  hexOfBytes (((List.range p.len).drop 1).map (fun i => p.data.getD i 0))

def lit_rssi : List Char := ['|', 'R', 'S', 'S', 'I', ':']

def lit_db : List Char := ['d', 'B', '|']

def lit_bracket : List Char := ['B', ']', ' ']

def crlf : List Char := ['\r', '\n']

/-- The full relay line built by `uart_send_task` for one packet at tick
count `tick` (source lines 188-202). -/
def renderLine (tick : Nat) (p : rx_packet_t) : List Char :=
  ('[' :: seqField tick) ++ lit_rssi ++ rssiField p ++ lit_db ++
    countField p ++ lit_bracket ++ hexSection p ++ crlf

-- Serial input handling in `uart_receive_task` (source lines 224-256).

/-- The command marker `"#CMD#"` as bytes (`CMD_PREFIX` in the source). -/
def cmd_marker : List Nat := [35, 67, 77, 68, 35]

/-- Keyword bytes for the mode-to-capture command. -/
def kw_mode_sniff : List Nat := "MODE_SNIFF".toList.map Char.toNat

/-- Keyword bytes for the mode-to-transmit command. -/
def kw_mode_tx : List Nat := "MODE_TX".toList.map Char.toNat

/-- Keyword bytes for the status command. -/
def kw_status : List Nat := "STATUS".toList.map Char.toNat

/-- C-string truncation: the bytes up to (excluding) the first NUL.  The
task writes `uart_data_buffer[len] = 0` and then uses string functions, so
every string operation sees at most this portion of the chunk. -/
def cstr (l : List Nat) : List Nat := l.takeWhile (fun b => b != 0)

/-- `strstr(hay, pat) != NULL`: `pat` occurs contiguously in `hay`. -/
def occursIn (pat : List Nat) : List Nat → Bool
  | [] => decide (pat = [])
  | c :: rest =>
      decide ((c :: rest).take pat.length = pat) || occursIn pat rest

/-- Classification of one serial input chunk by `uart_receive_task`. -/
inductive UartAction
  | cmdSetSniff
  | cmdSetTx
  | cmdStatus
  | cmdUnrecognized
  | txSubmit (frame : List Nat)
  | discardChunk
deriving DecidableEq, Repr

/-- One iteration of `uart_receive_task` on a nonempty chunk (source lines
228-253).  The `strncmp(buffer, CMD_PREFIX, 5)` test is `chunk.take 5 =
cmd_marker`; command matching uses `strstr` over the NUL-truncated
remainder; the precedence is MODE_SNIFF, then MODE_TX, then STATUS.  A
non-command chunk in `MODE_TX` is `memcpy`-ed — all `len` bytes of it, with
no truncation (source line 250) — into the 128-byte `tx_frame` and handed
to `esp_ieee802154_transmit`, so `txSubmit` carries the whole chunk. -/
def uart_receive_step (mode : operation_mode_t) (chunk : List Nat) :
    UartAction :=
  if chunk.take CMD_MARKER_LEN = cmd_marker then
    let cmd := cstr (chunk.drop CMD_MARKER_LEN)
    if occursIn kw_mode_sniff cmd then UartAction.cmdSetSniff
    else if occursIn kw_mode_tx cmd then UartAction.cmdSetTx
    else if occursIn kw_status cmd then UartAction.cmdStatus
    else UartAction.cmdUnrecognized
  else if mode = MODE_TX then UartAction.txSubmit chunk
  else UartAction.discardChunk

/-- The mode after `uart_receive_task` processes one chunk: only the two
mode commands invoke `switch_mode`. -/
def uart_step_mode (mode : operation_mode_t) (chunk : List Nat) :
    operation_mode_t :=
  match uart_receive_step mode chunk with
  | UartAction.cmdSetSniff => (switch_mode_model mode MODE_SNIFF).1
  | UartAction.cmdSetTx => (switch_mode_model mode MODE_TX).1
  | _ => mode

-- Helper lemmas about the rendering primitives.

theorem padLeft_length (w : Nat) (s : List Char) :
    (padLeft w s).length = max w s.length := by
  simp [padLeft]
  omega

theorem decCharsCore_length_le (fuel : Nat) :
    ∀ n k : Nat, n < fuel → 1 ≤ k → n < 10 ^ k →
      (decCharsCore fuel n).length ≤ k := by
  induction fuel with
  | zero => intro n k h; omega
  | succ f ih =>
    intro n k hn hk hpow
    unfold decCharsCore
    split
    · simpa using hk
    · rename_i h10
      have hk2 : 2 ≤ k := by
        by_contra hlt
        have : k = 1 := by omega
        subst this
        simp at hpow
        omega
      obtain ⟨k', rfl⟩ : ∃ k', k = k' + 1 := ⟨k - 1, by omega⟩
      have hdiv_fuel : n / 10 < f := by
        have h1 : n / 10 < n := Nat.div_lt_self (by omega) (by omega)
        omega
      have hdiv_pow : n / 10 < 10 ^ k' := by
        rw [Nat.div_lt_iff_lt_mul (by norm_num : (0:Nat) < 10)]
        calc n < 10 ^ (k' + 1) := hpow
          _ = 10 ^ k' * 10 := by rw [pow_succ]
      have hrec := ih (n / 10) k' hdiv_fuel (by omega) hdiv_pow
      simp only [List.length_append, List.length_cons, List.length_nil]
      omega

theorem decChars_length_le (n k : Nat) (hk : 1 ≤ k) (h : n < 10 ^ k) :
    (decChars n).length ≤ k :=
  decCharsCore_length_le (n + 1) n k (Nat.lt_succ_self n) hk h

theorem intChars_length_le (i : Int) (k : Nat) (hk : 1 ≤ k)
    (h1 : -((10 ^ k : Nat) : Int) < i) (h2 : i < ((10 ^ k : Nat) : Int)) :
    (intChars i).length ≤ k + 1 := by
  unfold intChars
  split
  · rename_i hneg
    have hb : (-i).toNat < 10 ^ k := by omega
    have := decChars_length_le (-i).toNat k hk hb
    simp only [List.length_cons]
    omega
  · have hb : i.toNat < 10 ^ k := by omega
    have := decChars_length_le i.toNat k hk hb
    omega

theorem hexOfBytes_length (l : List Nat) :
    (hexOfBytes l).length = 2 * l.length := by
  induction l with
  | nil => rfl
  | cons b rest ih =>
    simp [hexOfBytes, hex2, ih]
    omega

theorem seqField_length (tick : Nat) : (seqField tick).length = 6 := by
  have hmod : tick % 1000000 < 10 ^ 6 := by
    have := Nat.mod_lt tick (show 0 < 1000000 by norm_num)
    norm_num
    omega
  have hle := decChars_length_le (tick % 1000000) 6 (by norm_num) hmod
  simp [seqField, fmtNat, padLeft_length]
  omega

theorem rssiField_length (p : rx_packet_t) (h1 : -128 ≤ p.rssi)
    (h2 : p.rssi ≤ 127) : (rssiField p).length = 4 := by
  have hb := intChars_length_le p.rssi 3 (by norm_num)
    (by norm_num; omega) (by norm_num; omega)
  simp [rssiField, fmtInt, padLeft_length]
  omega

theorem hexSection_length (p : rx_packet_t) :
    (hexSection p).length = 2 * (p.len - 1) := by
  simp [hexSection, hexOfBytes_length]

-- Helper lemmas about the event-step model.

theorem stepEvent_queue_le (s : SnifferState) (e : SnifferEvent)
    (h : s.rx_queue.length ≤ QUEUE_SIZE) :
    (stepEvent s e).rx_queue.length ≤ QUEUE_SIZE := by
  cases e with
  | rxDone f r a =>
    simp only [stepEvent]
    unfold receive_done_model
    split
    · exact h
    · split
      · exact h
      · split
        · rename_i hq
          simp only [List.length_append, List.length_cons, List.length_nil]
          omega
        · exact h
  | dequeue =>
    simp only [stepEvent]
    have := List.length_tail s.rx_queue
    omega
  | setMode m => exact h

theorem runEvents_queue_le (events : List SnifferEvent) :
    ∀ s : SnifferState, s.rx_queue.length ≤ QUEUE_SIZE →
      (runEvents s events).rx_queue.length ≤ QUEUE_SIZE := by
  induction events with
  | nil => intro s h; exact h
  | cons e es ih =>
    intro s h
    exact ih _ (stepEvent_queue_le s e h)

-- Claim theorems.

/-- C1: the claim states that every invocation of
`esp_ieee802154_receive_done` calls `esp_ieee802154_receive_handle_done`
exactly once and `esp_ieee802154_receive` exactly once, on every branch.
The code violates this: the mode-gated branch (line 123) returns without
issuing either call, and the allocation-failure branch (lines 127-132)
re-arms reception but never signals buffer-consumed.  This theorem
evaluates the handler on those two failing inputs. -/
theorem handler_rearm_missing_bug :
    (receive_done_model
        { current_mode := MODE_TX, rx_queue := [], dropped_packets := 0 }
        [4, 1, 2, 3, 4] (-40) true).radioCalls = [] ∧
    (receive_done_model
        { current_mode := MODE_SNIFF, rx_queue := [], dropped_packets := 0 }
        [4, 1, 2, 3, 4] (-40) false).radioCalls = [HwCall.ieee_receive] := by
  decide

/-- C2: the claim states that a non-command chunk arriving in `MODE_TX` is
truncated to at most 128 bytes before being copied into the transmit frame
buffer.  The code performs `memcpy(tx_frame, uart_data_buffer, len)` with
no truncation (line 250), so a 129-byte chunk copies 129 bytes into the
128-byte `tx_frame`.  This theorem evaluates the task on that input. -/
theorem uart_tx_copy_overflow_bug :
    uart_receive_step MODE_TX (List.replicate 129 1) =
      UartAction.txSubmit (List.replicate 129 1) ∧
    (List.replicate 129 (1 : Nat)).length = 129 ∧
    tx_frame_capacity = 128 := by
  decide

/-- C3 counterexample: the claim asserts the capture-handler copy is
bounded by the 128-byte record capacity for ANY leading length byte.  With
leading byte 200 the handler copies `200 + 1 = 201` bytes (lines 135-137
perform no bound check), exceeding `rx_data_capacity = 128`. -/
theorem rx_copy_bound_cex :
    ¬ ((receive_done_model
          { current_mode := MODE_SNIFF, rx_queue := [], dropped_packets := 0 }
          (200 :: List.replicate 200 7) (-40) true).copied ≤ rx_data_capacity) ∧
    (receive_done_model
        { current_mode := MODE_SNIFF, rx_queue := [], dropped_packets := 0 }
        (200 :: List.replicate 200 7) (-40) true).copied = 201 := by
  decide

/-- C3 amended: whenever the frame's leading length byte is at most 127
(all the PHY can deliver), the number of bytes the handler copies into the
new record is bounded by the record's 128-byte capacity. -/
theorem rx_copy_bound_amended (s : SnifferState) (frame : List Nat)
    (rssi : Int) (hm : s.current_mode = MODE_SNIFF)
    (hb : frame.getD 0 0 ≤ 127) :
    (receive_done_model s frame rssi true).copied ≤ rx_data_capacity := by
  unfold receive_done_model
  split_ifs with h1 h2 h3
  · show (0 : Nat) ≤ rx_data_capacity
    simp
  · show (0 : Nat) ≤ rx_data_capacity
    simp
  · show (frame.getD 0 0 + 1) % 256 ≤ rx_data_capacity
    simp only [rx_data_capacity, MAX_FRAME_SIZE]
    omega
  · show (frame.getD 0 0 + 1) % 256 ≤ rx_data_capacity
    simp only [rx_data_capacity, MAX_FRAME_SIZE]
    omega

/-- C3 amended, witness: a concrete valid frame with length byte 4. -/
theorem rx_copy_bound_amended_witness :
    (receive_done_model
        { current_mode := MODE_SNIFF, rx_queue := [], dropped_packets := 0 }
        [4, 1, 2, 3, 4] (-40) true).copied ≤ rx_data_capacity :=
  rx_copy_bound_amended _ _ _ rfl (by decide)

/-- C4 counterexample: the claim asserts the stored initial value of the
mode variable is Capture; the source initializes `current_mode = MODE_TX`
(line 45). -/
theorem initial_mode_cex : current_mode_init ≠ MODE_SNIFF := by
  decide

/-- C4 amended: the stored initial value of the mode variable is Transmit;
`app_main` invokes `switch_mode(MODE_SNIFF)` during boot (line 292), which
— exactly because the stored value differs — performs the full capture
reconfiguration and leaves the mode at Capture, so reads after boot
initialization and before the first host command yield Capture. -/
theorem initial_mode_amended :
    current_mode_init = MODE_TX ∧
    (switch_mode_model current_mode_init MODE_SNIFF).1 = MODE_SNIFF ∧
    (switch_mode_model current_mode_init MODE_SNIFF).2 =
      [HwCall.set_promiscuous true, HwCall.set_panid 65535,
       HwCall.set_short_address 65535, HwCall.set_rx_when_idle true,
       HwCall.ieee_receive] := by
  decide

/-- C5: rendering the PacketRecord `⟨[4, AA, BB, CC, DD], 5, -42⟩` at
sequence value 12345 produces exactly
`"[ 12345|RSSI: -42dB|  4B] AABBCCDD\r\n"`. -/
theorem render_roundtrip_example :
    renderLine 12345 { data := [4, 170, 187, 204, 221], len := 5, rssi := -42 } =
      "[ 12345|RSSI: -42dB|  4B] AABBCCDD\r\n".toList := by
  decide

/-- C6: queue occupancy never exceeds 40 over any event sequence, and each
capture-handler invocation is accounted exactly: a frame outside Capture
mode changes nothing (DropCounter included); an allocation failure adds
exactly one drop and enqueues nothing; a successful enqueue transfers the
record to the queue with no drop; a full-queue failure frees the record
(it never reaches the queue) and adds exactly one drop. -/
theorem capture_queue_drop_invariants :
    (∀ (events : List SnifferEvent) (s : SnifferState),
        s.rx_queue.length ≤ QUEUE_SIZE →
          (runEvents s events).rx_queue.length ≤ QUEUE_SIZE) ∧
    (∀ (s : SnifferState) (frame : List Nat) (rssi : Int) (allocOk : Bool),
        (s.current_mode ≠ MODE_SNIFF →
          (receive_done_model s frame rssi allocOk).state = s ∧
          (receive_done_model s frame rssi allocOk).outcome =
            HandlerOutcome.ignored) ∧
        (s.current_mode = MODE_SNIFF → allocOk = false →
          (receive_done_model s frame rssi allocOk).state.rx_queue =
            s.rx_queue ∧
          (receive_done_model s frame rssi allocOk).state.dropped_packets =
            s.dropped_packets + 1 ∧
          (receive_done_model s frame rssi allocOk).outcome =
            HandlerOutcome.allocFailed) ∧
        (s.current_mode = MODE_SNIFF → allocOk = true →
          s.rx_queue.length < QUEUE_SIZE →
          (receive_done_model s frame rssi allocOk).state.rx_queue =
            s.rx_queue ++ [mkPacket frame rssi] ∧
          (receive_done_model s frame rssi allocOk).state.dropped_packets =
            s.dropped_packets ∧
          (receive_done_model s frame rssi allocOk).outcome =
            HandlerOutcome.enqueued (mkPacket frame rssi)) ∧
        (s.current_mode = MODE_SNIFF → allocOk = true →
          QUEUE_SIZE ≤ s.rx_queue.length →
          (receive_done_model s frame rssi allocOk).state.rx_queue =
            s.rx_queue ∧
          (receive_done_model s frame rssi allocOk).state.dropped_packets =
            s.dropped_packets + 1 ∧
          (receive_done_model s frame rssi allocOk).outcome =
            HandlerOutcome.freedRecord (mkPacket frame rssi))) := by
  refine ⟨runEvents_queue_le, ?_⟩
  intro s frame rssi allocOk
  refine ⟨?_, ?_, ?_, ?_⟩
  · intro h
    simp [receive_done_model, h]
  · intro h ha
    subst ha
    simp [receive_done_model, h]
  · intro h ha hq
    subst ha
    simp [receive_done_model, h, hq]
  · intro h ha hq
    subst ha
    simp [receive_done_model, h, Nat.not_lt.mpr hq]

/-- C6 witness: a concrete trace (an enqueue then a dequeue) keeps the
occupancy bound, and a concrete allocation-failure invocation adds exactly
one drop while leaving the queue untouched. -/
theorem capture_queue_drop_invariants_witness :
    (runEvents { current_mode := MODE_SNIFF, rx_queue := [], dropped_packets := 0 }
        [SnifferEvent.rxDone [3, 1, 2, 3] (-40) true,
         SnifferEvent.dequeue]).rx_queue.length ≤ QUEUE_SIZE ∧
    ((receive_done_model
        { current_mode := MODE_SNIFF, rx_queue := [], dropped_packets := 0 }
        [2, 9, 9] (-40) false).state.rx_queue = [] ∧
      (receive_done_model
        { current_mode := MODE_SNIFF, rx_queue := [], dropped_packets := 0 }
        [2, 9, 9] (-40) false).state.dropped_packets = 0 + 1 ∧
      (receive_done_model
        { current_mode := MODE_SNIFF, rx_queue := [], dropped_packets := 0 }
        [2, 9, 9] (-40) false).outcome = HandlerOutcome.allocFailed) :=
  ⟨capture_queue_drop_invariants.1 _ _ (by decide),
   (capture_queue_drop_invariants.2
      { current_mode := MODE_SNIFF, rx_queue := [], dropped_packets := 0 }
      [2, 9, 9] (-40) false).2.1 rfl rfl⟩

/-- C7: `switch_mode` is idempotent — invoked with the current mode it
issues zero hardware reconfiguration calls and leaves the mode unchanged;
invoked with the other mode it issues exactly the full reconfiguration
sequence for that mode once (Capture: promiscuous on, accept-all PAN and
short address, rx-when-idle on, start reception; Transmit: promiscuous
off, rx-when-idle off). -/
theorem switch_mode_idempotent_spec (cur new : operation_mode_t) :
    (cur = new → switch_mode_model cur new = (cur, [])) ∧
    (cur ≠ new → new = MODE_SNIFF →
      switch_mode_model cur new =
        (MODE_SNIFF,
         [HwCall.set_promiscuous true, HwCall.set_panid 65535,
          HwCall.set_short_address 65535, HwCall.set_rx_when_idle true,
          HwCall.ieee_receive])) ∧
    (cur ≠ new → new = MODE_TX →
      switch_mode_model cur new =
        (MODE_TX, [HwCall.set_promiscuous false,
                   HwCall.set_rx_when_idle false])) := by
  cases cur <;> cases new <;>
    refine ⟨?_, ?_, ?_⟩ <;> intro h <;> first
      | (intro h2; revert h h2; decide)
      | revert h; decide

/-- C7 witness: a repeated request for the active mode is a no-op, and a
genuine transition to Capture issues the full sequence once. -/
theorem switch_mode_idempotent_spec_witness :
    switch_mode_model MODE_SNIFF MODE_SNIFF = (MODE_SNIFF, []) ∧
    switch_mode_model MODE_TX MODE_SNIFF =
      (MODE_SNIFF,
       [HwCall.set_promiscuous true, HwCall.set_panid 65535,
        HwCall.set_short_address 65535, HwCall.set_rx_when_idle true,
        HwCall.ieee_receive]) :=
  ⟨(switch_mode_idempotent_spec MODE_SNIFF MODE_SNIFF).1 rfl,
   (switch_mode_idempotent_spec MODE_TX MODE_SNIFF).2.1 (by decide) rfl⟩

/-- C8 counterexample: the claim says the remainder of a `#CMD#` chunk is
matched by substring search.  The code uses `strstr`, which stops at the
first NUL byte: for the chunk `#CMD#` ++ `0x00` ++ `MODE_SNIFF`, the
remainder after the marker does contain the mode-to-capture keyword, yet
the task classifies the chunk as unrecognized and takes no action. -/
theorem cmd_dispatch_nul_cex :
    occursIn kw_mode_sniff ((cmd_marker ++ (0 :: kw_mode_sniff)).drop 5) = true ∧
    uart_receive_step MODE_SNIFF (cmd_marker ++ (0 :: kw_mode_sniff)) =
      UartAction.cmdUnrecognized ∧
    uart_receive_step MODE_SNIFF (cmd_marker ++ (0 :: kw_mode_sniff)) ≠
      UartAction.cmdSetSniff := by
  decide

/-- C8 amended: for chunks beginning with `#CMD#`, the remainder truncated
at the first NUL byte (C-string semantics) is matched case-sensitively, in
the precedence MODE_SNIFF, MODE_TX, STATUS, and exactly the first match's
action is taken; a prefixed chunk matching none changes nothing, and a
non-prefixed chunk in Capture mode has no effect at all. -/
theorem cmd_dispatch_amended (mode : operation_mode_t) (chunk : List Nat) :
    (chunk.take CMD_MARKER_LEN = cmd_marker →
      occursIn kw_mode_sniff (cstr (chunk.drop CMD_MARKER_LEN)) = true →
      uart_receive_step mode chunk = UartAction.cmdSetSniff ∧
      uart_step_mode mode chunk = (switch_mode_model mode MODE_SNIFF).1) ∧
    (chunk.take CMD_MARKER_LEN = cmd_marker →
      occursIn kw_mode_sniff (cstr (chunk.drop CMD_MARKER_LEN)) = false →
      occursIn kw_mode_tx (cstr (chunk.drop CMD_MARKER_LEN)) = true →
      uart_receive_step mode chunk = UartAction.cmdSetTx ∧
      uart_step_mode mode chunk = (switch_mode_model mode MODE_TX).1) ∧
    (chunk.take CMD_MARKER_LEN = cmd_marker →
      occursIn kw_mode_sniff (cstr (chunk.drop CMD_MARKER_LEN)) = false →
      occursIn kw_mode_tx (cstr (chunk.drop CMD_MARKER_LEN)) = false →
      occursIn kw_status (cstr (chunk.drop CMD_MARKER_LEN)) = true →
      uart_receive_step mode chunk = UartAction.cmdStatus ∧
      uart_step_mode mode chunk = mode) ∧
    (chunk.take CMD_MARKER_LEN = cmd_marker →
      occursIn kw_mode_sniff (cstr (chunk.drop CMD_MARKER_LEN)) = false →
      occursIn kw_mode_tx (cstr (chunk.drop CMD_MARKER_LEN)) = false →
      occursIn kw_status (cstr (chunk.drop CMD_MARKER_LEN)) = false →
      uart_receive_step mode chunk = UartAction.cmdUnrecognized ∧
      uart_step_mode mode chunk = mode) ∧
    (chunk.take CMD_MARKER_LEN ≠ cmd_marker → mode = MODE_SNIFF →
      uart_receive_step mode chunk = UartAction.discardChunk ∧
      uart_step_mode mode chunk = mode) := by
  refine ⟨?_, ?_, ?_, ?_, ?_⟩
  · intro hp hs
    have ha : uart_receive_step mode chunk = UartAction.cmdSetSniff := by
      simp [uart_receive_step, hp, hs]
    exact ⟨ha, by simp [uart_step_mode, ha]⟩
  · intro hp hs ht
    have ha : uart_receive_step mode chunk = UartAction.cmdSetTx := by
      simp [uart_receive_step, hp, hs, ht]
    exact ⟨ha, by simp [uart_step_mode, ha]⟩
  · intro hp hs ht hst
    have ha : uart_receive_step mode chunk = UartAction.cmdStatus := by
      simp [uart_receive_step, hp, hs, ht, hst]
    exact ⟨ha, by simp [uart_step_mode, ha]⟩
  · intro hp hs ht hst
    have ha : uart_receive_step mode chunk = UartAction.cmdUnrecognized := by
      simp [uart_receive_step, hp, hs, ht, hst]
    exact ⟨ha, by simp [uart_step_mode, ha]⟩
  · intro hp hm
    subst hm
    have ha : uart_receive_step MODE_SNIFF chunk = UartAction.discardChunk := by
      simp [uart_receive_step, hp]
    exact ⟨ha, by simp [uart_step_mode, ha]⟩

/-- C8 amended, witness: the concrete chunk `#CMD#MODE_TX` is classified
as the mode-to-transmit command and switches the mode. -/
theorem cmd_dispatch_amended_witness :
    uart_receive_step MODE_SNIFF ("#CMD#MODE_TX".toList.map Char.toNat) =
      UartAction.cmdSetTx ∧
    uart_step_mode MODE_SNIFF ("#CMD#MODE_TX".toList.map Char.toNat) =
      (switch_mode_model MODE_SNIFF MODE_TX).1 :=
  (cmd_dispatch_amended MODE_SNIFF
      ("#CMD#MODE_TX".toList.map Char.toNat)).2.1
    (by decide) (by decide) (by decide)

/-- C9: a maximum-size record (`len = 128`, 127 payload bytes) renders with
the byte-count field `127`, a hex section of exactly 254 characters, and a
total line of 282 characters, so the line plus the terminating NUL fits in
the 431-byte `output_buffer` with no truncation. -/
theorem render_max_payload (tick : Nat) (p : rx_packet_t)
    (hlen : p.len = 128) (h1 : -128 ≤ p.rssi) (h2 : p.rssi ≤ 127) :
    countField p = ['1', '2', '7'] ∧
    (hexSection p).length = 254 ∧
    (renderLine tick p).length = 282 ∧
    (renderLine tick p).length + 1 ≤ output_buffer_size := by
  have hcount : countField p = ['1', '2', '7'] := by
    unfold countField
    rw [hlen]
    decide
  have hhex : (hexSection p).length = 254 := by
    rw [hexSection_length, hlen]
  have hseq := seqField_length tick
  have hrssi := rssiField_length p h1 h2
  have htot : (renderLine tick p).length = 282 := by
    simp only [renderLine, List.length_append, List.length_cons, hseq,
      hrssi, hcount, hhex, lit_rssi, lit_db, lit_bracket, crlf,
      List.length_nil]
  refine ⟨hcount, hhex, htot, ?_⟩
  rw [htot]
  norm_num [output_buffer_size, MAX_FRAME_SIZE]

/-- C9 witness: a concrete maximum-size record. -/
theorem render_max_payload_witness :
    countField { data := List.replicate 128 0, len := 128, rssi := -42 } =
      ['1', '2', '7'] ∧
    (hexSection { data := List.replicate 128 0, len := 128, rssi := -42 }).length
      = 254 ∧
    (renderLine 99 { data := List.replicate 128 0, len := 128, rssi := -42 }).length
      = 282 ∧
    (renderLine 99 { data := List.replicate 128 0, len := 128, rssi := -42 }).length
      + 1 ≤ output_buffer_size :=
  render_max_payload 99 _ rfl (by decide) (by decide)

/-- C10: for every record with `len ≥ 1`, the byte-count field prints the
decimal value `len - 1` (right-justified to 3 characters) and the hex
section consists of exactly `len - 1` two-character groups, so the printed
count and the number of hex-encoded bytes always agree. -/
theorem render_count_hex_agree (p : rx_packet_t) (h : 1 ≤ p.len) :
    countField p = padLeft 3 (decChars (p.len - 1)) ∧
    (hexSection p).length = 2 * (p.len - 1) := by
  constructor
  · unfold countField fmtInt
    have hcast : ((p.len : Int) - 1) = ((p.len - 1 : Nat) : Int) := by
      omega
    rw [hcast]
    unfold intChars
    rw [if_neg (by omega)]
    simp
  · exact hexSection_length p

/-- C10 witness: the record from the round-trip example. -/
theorem render_count_hex_agree_witness :
    countField { data := [4, 170, 187, 204, 221], len := 5, rssi := -42 } =
      padLeft 3 (decChars 4) ∧
    (hexSection { data := [4, 170, 187, 204, 221], len := 5, rssi := -42 }).length
      = 2 * 4 :=
  render_count_hex_agree _ (by decide)
